import Mathlib

/-!
Verification of the multi-dimensional risk aggregation engine of
`ml-models/risk-assessor.py` (class `RiskAssessmentModel`).

The embedding below translates the Python source directly:
* Python floats become exact rationals (`ℚ`); every numeric constant of the
  source appears verbatim.
* The loosely-typed input dict `opportunity_data` becomes the structure
  `OppData`, in which every field is an `Option` so that `data.get(key, d)`
  is modelled faithfully by `Option.getD`.
* `pd.Timestamp.now()` (read inside `assess_smart_contract_risk`) becomes an
  explicit parameter `now : ℤ`, measured in whole days, and an audit `date`
  is the parsed timestamp in the same unit, so that
  `(pd.Timestamp.now() - pd.Timestamp(audit['date'])).days = now - date`.
* The one statement of the engine that can raise — the raw index
  `audit['date']`, a `KeyError` when the entry lacks a date — makes the
  Smart-Contract assessor (and hence the entry point) return
  `Except String _`; all other assessors are total.
* A Python branch that assigns several variables at once (a risk value, a
  `factors` entry, a mitigation) is rendered as one `let` per variable with
  the branch condition repeated, which is value-for-value the same.
-/

set_option maxHeartbeats 1000000

/-- The `RiskCategory` enum of the source (8 fixed categories). -/
inductive RiskCategory where
  | SMART_CONTRACT
  | IMPERMANENT_LOSS
  | LIQUIDITY
  | PROTOCOL
  | MARKET
  | REGULATORY
  | ORACLE
  | BRIDGE
deriving DecidableEq, Repr

/-- Values stored in a metric's `factors` dict: numbers, booleans or strings. -/
inductive FactorVal where
  | num (q : ℚ)
  | flag (b : Bool)
  | str (s : String)
deriving DecidableEq, Repr

/-- The `RiskMetrics` dataclass of the source. -/
structure RiskMetrics where
  category : RiskCategory
  score : ℚ
  confidence : ℚ
  factors : List (String × FactorVal)
  mitigation : List String
deriving DecidableEq, Repr

/-- One entry of the `audits` list: a dict with (possibly missing) keys
`firm` and `date`; `date` is the parsed timestamp in whole days. -/
structure AuditEntry where
  firm : Option String := none
  date : Option ℤ := none
deriving DecidableEq, Repr

/-- The `opportunity_data` input dict. Every key the engine reads is a field;
`none` models absence of the key, so `data.get(k, d)` is `(r.k).getD d`. -/
structure OppData where
  audits : Option (List AuditEntry) := none
  bug_bounty_size : Option ℚ := none
  contract_age_days : Option ℚ := none
  known_vulnerabilities : Option ℚ := none
  upgradeable : Option Bool := none
  timelock_days : Option ℚ := none
  is_lp_position : Option Bool := none
  token1_volatility : Option ℚ := none
  token2_volatility : Option ℚ := none
  token_correlation : Option ℚ := none
  il_protection : Option Bool := none
  is_stable_pair : Option Bool := none
  concentrated_liquidity : Option Bool := none
  tvl : Option ℚ := none
  volume_24h : Option ℚ := none
  unique_liquidity_providers : Option ℚ := none
  lock_period_days : Option ℚ := none
  protocol_tvl : Option ℚ := none
  protocol_age_days : Option ℚ := none
  team_doxxed : Option Bool := none
  previous_exploits : Option ℚ := none
  token_types : Option (List String) := none
  btc_correlation : Option ℚ := none
  sensitive_to_rates : Option Bool := none
  restricted_regions : Option (List String) := none
  kyc_required : Option Bool := none
  potential_security : Option Bool := none
  oracle_provider : Option String := none
  multi_oracle : Option Bool := none
  twap_enabled : Option Bool := none
  uses_bridge : Option Bool := none
  bridge_provider : Option String := none
  bridge_tvl : Option ℚ := none
  bridge_hacked_before : Option Bool := none
  apy : Option ℚ := none
deriving DecidableEq, Repr

/-- Python `str.lower()` for the ASCII provider/firm names used. -/
def strLower (s : String) : String := s.map Char.toLower

/-- The `self.audit_firms` reputation table. -/
def audit_firms (firm : String) : Option ℚ :=
  if firm = "certik" then some 0.9
  else if firm = "peckshield" then some 0.85
  else if firm = "trail_of_bits" then some 0.9
  else if firm = "consensys" then some 0.85
  else if firm = "openzeppelin" then some 0.88
  else if firm = "quantstamp" then some 0.82
  else if firm = "hacken" then some 0.75
  else none

/-- The `for audit in audits` scan of `assess_smart_contract_risk`, keeping
the best (minimal) per-audit risk score. An entry whose firm is in the
reputation table but which lacks a `date` raises `KeyError` in the source
(`audit['date']` is a raw index); that is the `.error` case. -/
def auditLoop (now : ℤ) : List AuditEntry → ℚ → Except String ℚ
  | [], best_audit_score => .ok best_audit_score
  | audit :: rest, best_audit_score =>
    match audit_firms (strLower (audit.firm.getD "")) with
    | none => auditLoop now rest best_audit_score
    | some firm_reputation =>
      match audit.date with
      | none => .error "KeyError: date"
      | some d =>
        let audit_age_days : ℤ := now - d
        let age_factor : ℚ := max 0.5 (1 - (audit_age_days : ℚ) / 365)
        let score := (1 - firm_reputation * age_factor) * 10
        auditLoop now rest (min best_audit_score score)

/-- `assess_smart_contract_risk` of the source. `now` stands for
`pd.Timestamp.now()` in whole days. `data.get('audits')` is falsy for a
missing key and for the empty list alike, hence the `isEmpty` test on the
defaulted list. -/
def assess_smart_contract_risk (now : ℤ) (data : OppData) :
    Except String RiskMetrics :=
  let audits := data.audits.getD []
  match (if audits.isEmpty then Except.ok 10 else auditLoop now audits 10 :
      Except String ℚ) with
  | .error e => .error e
  | .ok audit_score0 =>
    let factors0 := if audits.isEmpty then [("audit_quality", FactorVal.num 0)]
      else [("audit_quality", FactorVal.num (10 - audit_score0))]
    let mits0 := if audits.isEmpty then ["⚠️ Get protocol audited by reputable firm"]
      else if audit_score0 < 3 then ["Multiple reputable audits completed"] else []
    let bug_bounty := data.bug_bounty_size.getD 0
    let audit_score1 :=
      if bug_bounty > 1000000 then audit_score0 * 0.8
      else if bug_bounty > 100000 then audit_score0 * 0.9
      else audit_score0
    let factors1 := factors0 ++ [("bug_bounty",
      FactorVal.num (if bug_bounty > 1000000 then 8 else if bug_bounty > 100000 then 5 else 2))]
    let mits1 := mits0 ++
      (if bug_bounty > 1000000 then ["$" ++ toString bug_bounty ++ " bug bounty program active"]
       else if bug_bounty > 100000 then []
       else ["⚠️ Consider larger bug bounty program"])
    let contract_age_days := data.contract_age_days.getD 0
    let audit_score2 :=
      if contract_age_days > 365 then audit_score1 * 0.7
      else if contract_age_days > 90 then audit_score1 * 0.85
      else audit_score1
    let factors2 := factors1 ++ [("battle_tested",
      FactorVal.num (if contract_age_days > 365 then 8 else if contract_age_days > 90 then 5 else 2))]
    let mits2 := mits1 ++
      (if contract_age_days > 365 then ["Contract battle-tested for >1 year"]
       else if contract_age_days > 90 then []
       else ["⚠️ New contract - wait for battle-testing"])
    let audit_score3 :=
      if data.known_vulnerabilities.getD 0 > 0 then min 10 (audit_score2 + 3)
      else audit_score2
    let mits3 := mits2 ++
      (if data.known_vulnerabilities.getD 0 > 0 then ["🚨 Known vulnerabilities detected"] else [])
    let audit_score4 :=
      if data.upgradeable.getD false then
        (if data.timelock_days.getD 0 > 2 then audit_score3 else min 10 (audit_score3 + 2))
      else audit_score3
    let factors4 := factors2 ++ [("upgrade_risk",
      FactorVal.num (if data.upgradeable.getD false then
        (if data.timelock_days.getD 0 > 2 then 5 else 8) else 2))]
    let mits4 := mits3 ++
      (if data.upgradeable.getD false then
        (if data.timelock_days.getD 0 > 2 then
          [toString (data.timelock_days.getD 0) ++ " day timelock on upgrades"]
         else ["⚠️ Upgradeable with short/no timelock"])
       else ["Non-upgradeable contract"])
    .ok { category := RiskCategory.SMART_CONTRACT,
          score := min 10 audit_score4,
          confidence := 0.85,
          factors := factors4,
          mitigation := mits4 }

/-- `assess_impermanent_loss_risk` of the source. The source returns early
for non-LP positions; here the early return is the `else` branch. -/
def assess_impermanent_loss_risk (data : OppData) : RiskMetrics :=
  if data.is_lp_position.getD false then
    let vol1 := data.token1_volatility.getD 0.5
    let vol2 := data.token2_volatility.getD 0.5
    let correlation := data.token_correlation.getD 0
    let avg_vol := (vol1 + vol2) / 2
    let vol_diff := |vol1 - vol2|
    let vol_risk := min 10 (avg_vol * 20)
    let correlation_risk := (1 - |correlation|) * 5
    let divergence_risk := min 5 (vol_diff * 10)
    let il_score0 := vol_risk * 0.5 + correlation_risk * 0.3 + divergence_risk * 0.2
    let factors := [("volatility", FactorVal.num avg_vol),
      ("correlation", FactorVal.num correlation),
      ("divergence", FactorVal.num vol_diff)]
    let il_score1 := if data.il_protection.getD false then il_score0 * 0.3 else il_score0
    let mits1 := if data.il_protection.getD false then ["IL protection available"] else []
    let il_score2 := if data.is_stable_pair.getD false then min 2 il_score1 else il_score1
    let mits2 := mits1 ++
      (if data.is_stable_pair.getD false then ["Stable pair - minimal IL risk"] else [])
    let il_score3 :=
      if data.concentrated_liquidity.getD false then min 10 (il_score2 * 1.5) else il_score2
    let mits3 := mits2 ++
      (if data.concentrated_liquidity.getD false then
        ["⚠️ Concentrated liquidity - higher IL risk"] else [])
    let mits4 := mits3 ++
      (if il_score3 > 7 then
        ["⚠️ Consider single-sided staking instead", "⚠️ Use IL hedging strategies"]
       else if il_score3 > 4 then
        ["Monitor price ratios regularly", "Consider rebalancing if divergence occurs"]
       else [])
    { category := RiskCategory.IMPERMANENT_LOSS, score := il_score3, confidence := 0.8,
      factors := factors, mitigation := mits4 }
  else
    { category := RiskCategory.IMPERMANENT_LOSS, score := 0, confidence := 1,
      factors := [("not_applicable", FactorVal.flag true)],
      mitigation := ["Not an LP position"] }

/-- `assess_liquidity_risk` of the source. Note `turnover` is only defined
(and only recorded as a factor) when `tvl > 0`. -/
def assess_liquidity_risk (data : OppData) : RiskMetrics :=
  let tvl := data.tvl.getD 0
  let volume_24h := data.volume_24h.getD 0
  let unique_lps := data.unique_liquidity_providers.getD 0
  let tvl_risk : ℚ :=
    if tvl > 10000000 then 1 else if tvl > 1000000 then 3
    else if tvl > 100000 then 6 else 9
  let factors1 := [("tvl_depth", FactorVal.num
    (if tvl > 10000000 then 9 else if tvl > 1000000 then 6
     else if tvl > 100000 then 3 else 1))]
  let mits1 : List String :=
    if tvl > 10000000 then ["Deep liquidity pool >$10M"]
    else if tvl > 1000000 then [] else if tvl > 100000 then []
    else ["⚠️ Low liquidity - difficult exits"]
  let turnover := volume_24h / tvl
  let volume_risk : ℚ :=
    if tvl > 0 then
      (if turnover > 1 then 2 else if turnover > 0.1 then 4 else 7)
    else 10
  let factors2 := factors1 ++
    (if tvl > 0 then [("turnover", FactorVal.num turnover)] else [])
  let mits2 := mits1 ++
    (if tvl > 0 then
      (if turnover > 1 then ["High trading activity"]
       else if turnover > 0.1 then [] else ["⚠️ Low trading volume"])
     else [])
  let concentration_risk : ℚ :=
    if unique_lps > 100 then 2 else if unique_lps > 20 then 5 else 8
  let factors3 := factors2 ++ [("lp_distribution", FactorVal.num
    (if unique_lps > 100 then 8 else if unique_lps > 20 then 5 else 2))]
  let mits3 := mits2 ++
    (if unique_lps > 100 then ["Well-distributed liquidity providers"]
     else if unique_lps > 20 then [] else ["⚠️ Concentrated liquidity providers"])
  let lock_days := data.lock_period_days.getD 0
  let lock_risk : ℚ := if lock_days > 30 then min 10 (lock_days / 10) else 0
  let factors4 := factors3 ++
    [("lock_period", FactorVal.num (if lock_days > 30 then lock_days else 0))]
  let mits4 := mits3 ++
    (if lock_days > 30 then ["⚠️ " ++ toString lock_days ++ " day lock period"] else [])
  let liquidity_score :=
    tvl_risk * 0.4 + volume_risk * 0.3 + concentration_risk * 0.2 + lock_risk * 0.1
  { category := RiskCategory.LIQUIDITY, score := liquidity_score, confidence := 0.9,
    factors := factors4, mitigation := mits4 }

/-- `assess_protocol_risk` of the source. -/
def assess_protocol_risk (data : OppData) : RiskMetrics :=
  let protocol_tvl := data.protocol_tvl.getD 0
  let protocol_age_days := data.protocol_age_days.getD 0
  let team_doxxed := data.team_doxxed.getD false
  let tvl_risk : ℚ :=
    if protocol_tvl > 1000000000 then 1 else if protocol_tvl > 100000000 then 3
    else if protocol_tvl > 10000000 then 5 else 8
  let factors1 := [("protocol_size", FactorVal.num
    (if protocol_tvl > 1000000000 then 9 else if protocol_tvl > 100000000 then 7
     else if protocol_tvl > 10000000 then 5 else 2))]
  let mits1 : List String :=
    if protocol_tvl > 1000000000 then ["Blue-chip protocol with >$1B TVL"]
    else if protocol_tvl > 100000000 then [] else if protocol_tvl > 10000000 then []
    else ["⚠️ Small protocol - higher risk"]
  let age_risk : ℚ :=
    if protocol_age_days > 365 then 2 else if protocol_age_days > 90 then 5 else 8
  let factors2 := factors1 ++ [("maturity", FactorVal.num
    (if protocol_age_days > 365 then 8 else if protocol_age_days > 90 then 5 else 2))]
  let mits2 := mits1 ++
    (if protocol_age_days > 365 then ["Established protocol >1 year"]
     else if protocol_age_days > 90 then [] else ["⚠️ New protocol <3 months"])
  let team_risk : ℚ := if team_doxxed then 3 else 7
  let factors3 := factors2 ++
    [("team_trust", FactorVal.num (if team_doxxed then 7 else 3))]
  let mits3 := mits2 ++
    (if team_doxxed then ["Team is doxxed/known"] else ["⚠️ Anonymous team"])
  let previous_exploits := data.previous_exploits.getD 0
  let exploit_risk : ℚ :=
    if previous_exploits > 0 then min 10 (5 + previous_exploits * 2) else 0
  let factors4 := factors3 ++ [("exploit_history",
    FactorVal.num (if previous_exploits > 0 then previous_exploits else 0))]
  let mits4 := mits3 ++
    (if previous_exploits > 0 then
      ["🚨 " ++ toString previous_exploits ++ " previous exploits"] else [])
  let protocol_score :=
    tvl_risk * 0.3 + age_risk * 0.3 + team_risk * 0.2 + exploit_risk * 0.2
  { category := RiskCategory.PROTOCOL, score := protocol_score, confidence := 0.85,
    factors := factors4, mitigation := mits4 }

/-- `assess_market_risk` of the source. -/
def assess_market_risk (data : OppData) : RiskMetrics :=
  let token_types := data.token_types.getD []
  let type_risk : ℚ :=
    if token_types.contains "stablecoin" then 2
    else if token_types.contains "bluechip" then 4
    else if token_types.contains "altcoin" then 7 else 9
  let factors1 := [("token_stability", FactorVal.num
    (if token_types.contains "stablecoin" then 8
     else if token_types.contains "bluechip" then 6
     else if token_types.contains "altcoin" then 3 else 1))]
  let mits1 : List String :=
    if token_types.contains "stablecoin" then ["Stablecoin exposure reduces volatility"]
    else if token_types.contains "bluechip" then []
    else if token_types.contains "altcoin" then []
    else ["⚠️ High volatility token exposure"]
  let btc_correlation := |data.btc_correlation.getD 0.5|
  let factors2 := factors1 ++ [("market_correlation", FactorVal.num btc_correlation)]
  let correlation_risk : ℚ :=
    if btc_correlation > 0.8 then 7 else if btc_correlation > 0.5 then 5 else 3
  let mits2 := mits1 ++
    (if btc_correlation > 0.8 then ["⚠️ High correlation with BTC"]
     else if btc_correlation > 0.5 then [] else ["Low market correlation"])
  let macro_risk : ℚ := if data.sensitive_to_rates.getD false then 6 else 3
  let factors3 := factors2 ++
    [("macro_sensitive", FactorVal.flag (data.sensitive_to_rates.getD false))]
  let mits3 := mits2 ++
    (if data.sensitive_to_rates.getD false then
      ["⚠️ Sensitive to interest rate changes"] else [])
  let market_score := type_risk * 0.5 + correlation_risk * 0.3 + macro_risk * 0.2
  { category := RiskCategory.MARKET, score := market_score, confidence := 0.75,
    factors := factors3, mitigation := mits3 }

/-- `assess_regulatory_risk` of the source. -/
def assess_regulatory_risk (data : OppData) : RiskMetrics :=
  let restricted_regions := data.restricted_regions.getD []
  let geo_risk : ℚ := if restricted_regions.contains "US" then 7 else 3
  let factors1 :=
    [("us_restricted", FactorVal.flag (restricted_regions.contains "US"))]
  let mits1 : List String :=
    if restricted_regions.contains "US" then ["⚠️ US restrictions apply"] else []
  let kyc_risk : ℚ := if data.kyc_required.getD false then 2 else 5
  let factors2 := factors1 ++ [("kyc", FactorVal.flag (data.kyc_required.getD false))]
  let mits2 := mits1 ++
    (if data.kyc_required.getD false then ["KYC compliance required"] else [])
  let security_risk : ℚ := if data.potential_security.getD false then 8 else 3
  let factors3 := factors2 ++
    [("security_risk", FactorVal.flag (data.potential_security.getD false))]
  let mits3 := mits2 ++
    (if data.potential_security.getD false then
      ["🚨 Potential security classification risk"] else [])
  let regulatory_score := geo_risk * 0.4 + kyc_risk * 0.2 + security_risk * 0.4
  { category := RiskCategory.REGULATORY, score := regulatory_score, confidence := 0.7,
    factors := factors3, mitigation := mits3 }

/-- The `oracle_scores` reputation dict of `assess_oracle_risk`, with its
`.get(_, 9)` default folded in. -/
def oracle_scores (provider : String) : ℚ :=
  if provider = "chainlink" then 2
  else if provider = "band" then 4
  else if provider = "dia" then 5
  else if provider = "api3" then 5
  else if provider = "pyth" then 3
  else if provider = "uma" then 4
  else if provider = "twap" then 6
  else if provider = "spot" then 8
  else if provider = "unknown" then 9
  else 9

/-- `assess_oracle_risk` of the source. The reputation mitigations are
chosen before the multiplicative discounts are applied. -/
def assess_oracle_risk (data : OppData) : RiskMetrics :=
  let oracle_provider := data.oracle_provider.getD "unknown"
  let oracle_risk0 := oracle_scores (strLower oracle_provider)
  let factors1 := [("oracle_provider", FactorVal.str oracle_provider)]
  let mits1 : List String :=
    if oracle_risk0 ≤ 3 then ["Reputable oracle: " ++ oracle_provider]
    else if oracle_risk0 ≥ 7 then ["⚠️ Weak price feed: " ++ oracle_provider]
    else []
  let oracle_risk1 :=
    if data.multi_oracle.getD false then oracle_risk0 * 0.6 else oracle_risk0
  let factors2 := factors1 ++
    [("multi_oracle", FactorVal.flag (data.multi_oracle.getD false))]
  let mits2 := mits1 ++
    (if data.multi_oracle.getD false then
      ["Multiple oracle sources for redundancy"] else [])
  let oracle_risk2 :=
    if data.twap_enabled.getD false then oracle_risk1 * 0.8 else oracle_risk1
  let factors3 := factors2 ++
    [("twap_protection", FactorVal.flag (data.twap_enabled.getD false))]
  let mits3 := mits2 ++
    (if data.twap_enabled.getD false then
      ["TWAP protection against manipulation"] else [])
  { category := RiskCategory.ORACLE, score := oracle_risk2, confidence := 0.8,
    factors := factors3, mitigation := mits3 }

/-- The `bridge_scores` reputation dict of `assess_bridge_risk`, with its
`.get(_, 9)` default folded in. -/
def bridge_scores (provider : String) : ℚ :=
  if provider = "native" then 2
  else if provider = "layerzero" then 3
  else if provider = "wormhole" then 4
  else if provider = "axelar" then 4
  else if provider = "celer" then 5
  else if provider = "multichain" then 7
  else if provider = "unknown" then 9
  else 9

/-- `assess_bridge_risk` of the source; the early return for positions that
use no bridge is the `else` branch. A bridge TVL between $10M and $1B sets
no `bridge_security` factor and no TVL mitigation. -/
def assess_bridge_risk (data : OppData) : RiskMetrics :=
  if data.uses_bridge.getD false then
    let bridge_provider := data.bridge_provider.getD "unknown"
    let bridge_risk0 := bridge_scores (strLower bridge_provider)
    let factors1 := [("bridge_provider", FactorVal.str bridge_provider)]
    let bridge_tvl := data.bridge_tvl.getD 0
    let bridge_risk1 :=
      if bridge_tvl > 1000000000 then bridge_risk0 * 0.7
      else if bridge_tvl < 10000000 then min 10 (bridge_risk0 * 1.5)
      else bridge_risk0
    let factors2 := factors1 ++
      (if bridge_tvl > 1000000000 then [("bridge_security", FactorVal.num 7)]
       else if bridge_tvl < 10000000 then [("bridge_security", FactorVal.num 3)]
       else [])
    let mits2 : List String :=
      if bridge_tvl > 1000000000 then ["High-security bridge with >$1B locked"]
      else if bridge_tvl < 10000000 then ["⚠️ Low-security bridge"]
      else []
    let bridge_risk2 :=
      if data.bridge_hacked_before.getD false then min 10 (bridge_risk1 + 3)
      else bridge_risk1
    let mits3 := mits2 ++
      (if data.bridge_hacked_before.getD false then
        ["🚨 Bridge has been hacked before"] else [])
    { category := RiskCategory.BRIDGE, score := bridge_risk2, confidence := 0.75,
      factors := factors2, mitigation := mits3 }
  else
    { category := RiskCategory.BRIDGE, score := 0, confidence := 1,
      factors := [("not_applicable", FactorVal.flag true)],
      mitigation := ["No bridge required"] }

/-- The `self.risk_weights` table. The source reads it through
`.get(category, 0.1)`, but the dict lists every enum value, so the default
is never taken and the table is a total function on `RiskCategory`. -/
def risk_weights : RiskCategory → ℚ
  | .SMART_CONTRACT => 0.25
  | .IMPERMANENT_LOSS => 0.20
  | .LIQUIDITY => 0.15
  | .PROTOCOL => 0.15
  | .MARKET => 0.10
  | .REGULATORY => 0.05
  | .ORACLE => 0.05
  | .BRIDGE => 0.05

/-- `calculate_overall_risk` of the source. -/
def calculate_overall_risk (risk_metrics : List RiskMetrics) : ℚ :=
  let total_score :=
    (risk_metrics.map fun m => m.score * risk_weights m.category * m.confidence).sum
  let total_weight :=
    (risk_metrics.map fun m => risk_weights m.category * m.confidence).sum
  if total_weight > 0 then total_score / total_weight else 5

/-- `determine_risk_tier` of the source. -/
def determine_risk_tier (overall_score : ℚ) : String :=
  if overall_score < 2 then "MINIMAL"
  else if overall_score < 4 then "LOW"
  else if overall_score < 6 then "MEDIUM"
  else if overall_score < 8 then "HIGH"
  else "EXTREME"

/-- `determine_suitability` of the source. -/
def determine_suitability (overall_score : ℚ) : List String :=
  if overall_score < 4 then ["Conservative", "Moderate", "Aggressive", "Degen"]
  else if overall_score < 6 then ["Moderate", "Aggressive", "Degen"]
  else if overall_score < 8 then ["Aggressive", "Degen"]
  else ["Degen"]

/-- `calculate_max_allocation` of the source. -/
def calculate_max_allocation (overall_score : ℚ) : ℚ :=
  if overall_score < 2 then 40
  else if overall_score < 4 then 25
  else if overall_score < 6 then 15
  else if overall_score < 8 then 8
  else 3

/-- Stable insertion of a metric into a list already sorted by descending
score: the new element goes after every element of score ≥ its own that it
meets, never past a strictly smaller one. -/
def insert_desc (m : RiskMetrics) : List RiskMetrics → List RiskMetrics
  | [] => [m]
  | x :: xs => if m.score < x.score then x :: insert_desc m xs else m :: x :: xs

/-- `sorted(risk_metrics, key=lambda x: x.score, reverse=True)`: a stable
descending sort by score (Python's sort is stable; for the total preorder
"by score" any stable sort produces the same list). -/
def sort_desc (l : List RiskMetrics) : List RiskMetrics := l.foldr insert_desc []

/-- `generate_recommendations` of the source. -/
def generate_recommendations (risk_metrics : List RiskMetrics) (data : OppData) :
    List String :=
  let sorted_metrics := sort_desc risk_metrics
  let recommendations := (sorted_metrics.take 3).foldl
    (fun acc m => if m.score > 6 then acc ++ m.mitigation.take 2 else acc) []
  let overall_score := calculate_overall_risk risk_metrics
  let max_allocation := calculate_max_allocation overall_score
  let recommendations := recommendations ++
    ["💰 Maximum allocation: " ++ toString max_allocation ++ "% of portfolio"]
  let recommendations :=
    if overall_score > 7 then
      recommendations ++ ["⏰ Consider waiting for risk factors to improve"]
    else if data.apy.getD 0 > 100 then
      recommendations ++ ["⏰ Enter gradually to avoid FOMO"]
    else recommendations
  let recommendations :=
    if risk_metrics.any (fun m =>
        m.category == RiskCategory.IMPERMANENT_LOSS && decide (m.score > 6)) then
      recommendations ++ ["🛡️ Consider IL hedging strategies or insurance"]
    else recommendations
  recommendations

/-- The result dict of `assess_opportunity`. The source keys `risk_metrics`
by `category.value`; since each category occurs exactly once, the dict is
the 8-element list in assessment order. -/
structure AssessmentResult where
  overall_score : ℚ
  risk_tier : String
  risk_metrics : List RiskMetrics
  recommendations : List String
  suitable_for : List String
  max_allocation_percentage : ℚ
deriving DecidableEq, Repr

/-- `assess_opportunity` of the source: the single entry point. A raise in
the Smart-Contract assessor aborts the whole assessment. -/
def assess_opportunity (now : ℤ) (opportunity_data : OppData) :
    Except String AssessmentResult :=
  match assess_smart_contract_risk now opportunity_data with
  | .error e => .error e
  | .ok sc =>
    let risk_metrics := [sc,
      assess_impermanent_loss_risk opportunity_data,
      assess_liquidity_risk opportunity_data,
      assess_protocol_risk opportunity_data,
      assess_market_risk opportunity_data,
      assess_regulatory_risk opportunity_data,
      assess_oracle_risk opportunity_data,
      assess_bridge_risk opportunity_data]
    let overall_score := calculate_overall_risk risk_metrics
    .ok { overall_score := overall_score,
          risk_tier := determine_risk_tier overall_score,
          risk_metrics := risk_metrics,
          recommendations := generate_recommendations risk_metrics opportunity_data,
          suitable_for := determine_suitability overall_score,
          max_allocation_percentage := calculate_max_allocation overall_score }

/-- Whether an assessment call returned normally (no raise). -/
def isOkE (e : Except String AssessmentResult) : Bool :=
  match e with
  | .ok _ => true
  | .error _ => false

/-- The `risk_tier` of an assessment, or a marker when the call raised. -/
def tierOf (e : Except String AssessmentResult) : String :=
  match e with
  | .ok res => res.risk_tier
  | .error _ => "<raised>"

/-- The `max_allocation_percentage` of an assessment (0 when the call raised). -/
def allocOf (e : Except String AssessmentResult) : ℚ :=
  match e with
  | .ok res => res.max_allocation_percentage
  | .error _ => 0

/-- The `overall_score` of an assessment (0 when the call raised). -/
def overallOf (e : Except String AssessmentResult) : ℚ :=
  match e with
  | .ok res => res.overall_score
  | .error _ => 0

/-- The 8 risk metrics of an assessment ([] when the call raised). -/
def metricsOf (e : Except String AssessmentResult) : List RiskMetrics :=
  match e with
  | .ok res => res.risk_metrics
  | .error _ => []

/-- The aggregation formula exactly as the specification words it:
`overall_score = Σ(score_i * weight_i * confidence_i) / Σ(weight_i * confidence_i)`
with the neutral default 5 when the denominator is zero. Written separately
from `calculate_overall_risk` (which tests `total_weight > 0`) so the two
can be compared. -/
def overall_score_spec (risk_metrics : List RiskMetrics) : ℚ :=
  let den := (risk_metrics.map fun m => risk_weights m.category * m.confidence).sum
  if den = 0 then 5
  else (risk_metrics.map fun m => m.score * risk_weights m.category * m.confidence).sum / den

/-- The end-to-end scenario input of the specification: `{tvl: 5_000_000,
audits: [], bug_bounty_size: 0, contract_age_days: 30, protocol_tvl:
5_000_000, protocol_age_days: 30, team_doxxed: False, is_lp_position: False,
uses_bridge: False, oracle_provider: "unknown", token_types: ["memecoin"]}`. -/
def c2_input : OppData :=
  { tvl := some 5000000, audits := some [], bug_bounty_size := some 0,
    contract_age_days := some 30, protocol_tvl := some 5000000,
    protocol_age_days := some 30, team_doxxed := some false,
    is_lp_position := some false, uses_bridge := some false,
    oracle_provider := some "unknown", token_types := some ["memecoin"] }

/-- An input with one recent audit by a recognized firm: its assessment
reads the clock. -/
def c4_input : OppData := { audits := some [{ firm := some "certik", date := some 0 }] }

/-- An input whose audit entry has a recognized firm but no date. -/
def c5_input : OppData := { audits := some [{ firm := some "certik" }] }

/-- An input whose audit entry has an unrecognized firm and no date: the
firm defaults to an empty-ish lookup and the date is never read. -/
def c5_witness_input : OppData := { audits := some [{ firm := some "unaudited-unknown-firm" }] }

/-- A stable LP pair with concentrated liquidity and default volatilities. -/
def c7_input : OppData :=
  { is_lp_position := some true, is_stable_pair := some true,
    concentrated_liquidity := some true }

/-- A stable LP pair without concentrated liquidity. -/
def c7_witness_input : OppData :=
  { is_lp_position := some true, is_stable_pair := some true }

/-- A single concrete metric used to instantiate the aggregation theorem. -/
def c1_metric : RiskMetrics :=
  { category := RiskCategory.SMART_CONTRACT, score := 10, confidence := 0.85,
    factors := [], mitigation := [] }

/-! Helper lemmas about the embedding. -/

/-- Every weight in the category table is positive. -/
theorem risk_weights_pos (c : RiskCategory) : 0 < risk_weights c := by
  cases c <;> norm_num [risk_weights]

/-- When the audit list is empty, the Smart-Contract assessor never reads
the clock: the whole branch that uses `now` is skipped. -/
theorem assess_smart_contract_risk_time_indep (t1 t2 : ℤ) (r : OppData)
    (h : (r.audits.getD []).isEmpty = true) :
    assess_smart_contract_risk t1 r = assess_smart_contract_risk t2 r := by
  unfold assess_smart_contract_risk
  simp only [h, if_true]

/-- Only the Smart-Contract assessor reads the clock, so an audit-free
assessment is independent of it. -/
theorem assess_opportunity_time_indep (t1 t2 : ℤ) (r : OppData)
    (h : (r.audits.getD []).isEmpty = true) :
    assess_opportunity t1 r = assess_opportunity t2 r := by
  unfold assess_opportunity
  rw [assess_smart_contract_risk_time_indep t1 t2 r h]

/-- The audit scan succeeds whenever every recognized-firm entry carries a
date. -/
theorem auditLoop_ok (now : ℤ) (l : List AuditEntry)
    (h : ∀ a ∈ l, audit_firms (strLower (a.firm.getD "")) ≠ none → a.date ≠ none) :
    ∀ b : ℚ, ∃ q, auditLoop now l b = .ok q := by
  induction l with
  | nil => intro b; exact ⟨b, rfl⟩
  | cons a rest ih =>
    intro b
    have hrest : ∀ x ∈ rest, audit_firms (strLower (x.firm.getD "")) ≠ none → x.date ≠ none :=
      fun x hx => h x (List.mem_cons_of_mem a hx)
    unfold auditLoop
    cases hf : audit_firms (strLower (a.firm.getD "")) with
    | none => exact ih hrest b
    | some rep =>
      have hd : a.date ≠ none :=
        h a (List.mem_cons_self a rest) (by rw [hf]; exact Option.some_ne_none rep)
      cases hdate : a.date with
      | none => exact absurd hdate hd
      | some d => exact ih hrest _

/-- The Smart-Contract assessor succeeds whenever every recognized-firm
audit entry carries a date. -/
theorem assess_smart_contract_risk_ok (now : ℤ) (r : OppData)
    (h : ∀ a ∈ r.audits.getD [], audit_firms (strLower (a.firm.getD "")) ≠ none → a.date ≠ none) :
    ∃ m, assess_smart_contract_risk now r = .ok m := by
  unfold assess_smart_contract_risk
  by_cases he : (r.audits.getD []).isEmpty = true
  · simp only [he, if_true]
    exact ⟨_, rfl⟩
  · obtain ⟨q, hq⟩ := auditLoop_ok now (r.audits.getD []) h 10
    simp only [he, if_false, hq]
    exact ⟨_, rfl⟩

/-- Every reputation in the audit-firm table lies in [0.75, 0.9]. -/
theorem audit_firms_bounds (s : String) (q : ℚ) (h : audit_firms s = some q) :
    0.75 ≤ q ∧ q ≤ 0.9 := by
  unfold audit_firms at h
  split_ifs at h <;> simp at h <;> subst h <;> constructor <;> norm_num

/-- A successful audit scan over past-dated audits returns a value between 0
and its starting accumulator. -/
theorem auditLoop_bounds (now : ℤ) (l : List AuditEntry)
    (hd : ∀ a ∈ l, a.date.getD now ≤ now) :
    ∀ b q : ℚ, 0 ≤ b → auditLoop now l b = .ok q → 0 ≤ q ∧ q ≤ b := by
  induction l with
  | nil =>
    intro b q hb h
    unfold auditLoop at h
    injection h with h2
    subst h2
    exact ⟨hb, le_refl b⟩
  | cons a rest ih =>
    intro b q hb h
    have hdrest : ∀ x ∈ rest, x.date.getD now ≤ now :=
      fun x hx => hd x (List.mem_cons_of_mem a hx)
    unfold auditLoop at h
    cases hf : audit_firms (strLower (a.firm.getD "")) with
    | none =>
      simp only [hf] at h
      exact ih hdrest b q hb h
    | some rep =>
      simp only [hf] at h
      cases hdate : a.date with
      | none =>
        simp only [hdate] at h
        exact Except.noConfusion h
      | some d =>
        simp only [hdate] at h
        obtain ⟨hr1, hr2⟩ := audit_firms_bounds _ _ hf
        have hdle : d ≤ now := by
          have := hd a (List.mem_cons_self a rest)
          rwa [hdate, Option.getD_some] at this
        have hage : (0:ℚ) ≤ ((now - d : ℤ) : ℚ) := by
          have h0 : (0:ℤ) ≤ now - d := by omega
          exact_mod_cast h0
        have haf1 : max 0.5 (1 - ((now - d : ℤ) : ℚ)/365) ≤ 1 := by
          apply max_le (by norm_num)
          have h365 : (0:ℚ) ≤ ((now - d : ℤ):ℚ)/365 := by positivity
          linarith
        have haf0 : (0:ℚ) ≤ max 0.5 (1 - ((now - d : ℤ):ℚ)/365) :=
          le_max_of_le_left (by norm_num)
        have hscore : (0:ℚ) ≤ (1 - rep * max 0.5 (1 - ((now - d:ℤ):ℚ)/365)) * 10 := by
          nlinarith
        have hres := ih hdrest _ q (le_min hb hscore) h
        exact ⟨hres.1, le_trans hres.2 (min_le_left _ _)⟩

/-- A successful Smart-Contract assessment carries the hard-coded
confidence 0.85 and its own category. -/
theorem sc_ok_facts (now : ℤ) (r : OppData) (m : RiskMetrics)
    (h : assess_smart_contract_risk now r = .ok m) :
    m.confidence = 0.85 ∧ m.category = RiskCategory.SMART_CONTRACT := by
  unfold assess_smart_contract_risk at h
  rcases hcase : (if (r.audits.getD []).isEmpty then Except.ok 10
      else auditLoop now (r.audits.getD []) 10 : Except String ℚ) with e | a0
  · simp only [hcase] at h
    exact Except.noConfusion h
  · simp only [hcase] at h
    injection h with h2
    subst h2
    exact ⟨rfl, rfl⟩

/-- Score bounds for a successful Smart-Contract assessment over
past-dated audits. -/
theorem sc_score_bounds (now : ℤ) (r : OppData) (m : RiskMetrics)
    (hd : ∀ a ∈ r.audits.getD [], a.date.getD now ≤ now)
    (h : assess_smart_contract_risk now r = .ok m) :
    0 ≤ m.score ∧ m.score ≤ 10 := by
  unfold assess_smart_contract_risk at h
  rcases hcase : (if (r.audits.getD []).isEmpty then Except.ok 10
      else auditLoop now (r.audits.getD []) 10 : Except String ℚ) with e | a0
  · simp only [hcase] at h
    exact Except.noConfusion h
  · simp only [hcase] at h
    have ha0 : 0 ≤ a0 ∧ a0 ≤ 10 := by
      by_cases he : (r.audits.getD []).isEmpty = true
      · rw [if_pos he] at hcase
        injection hcase with h2
        subst h2
        norm_num
      · rw [if_neg he] at hcase
        exact auditLoop_bounds now _ hd 10 a0 (by norm_num) hcase
    injection h with h2
    subst h2
    dsimp only
    constructor
    · refine le_min (by norm_num) ?_
      simp only [min_def]
      split_ifs <;> linarith [ha0.1, ha0.2]
    · exact min_le_left _ _

/-- Hard-coded confidences of the total assessors. -/
theorem reg_conf : ∀ r : OppData, (assess_regulatory_risk r).confidence = 0.7 := fun _ => rfl

/-- Hard-coded Market confidence. -/
theorem mkt_conf : ∀ r : OppData, (assess_market_risk r).confidence = 0.75 := fun _ => rfl

/-- Hard-coded Liquidity confidence. -/
theorem liq_conf : ∀ r : OppData, (assess_liquidity_risk r).confidence = 0.9 := fun _ => rfl

/-- Hard-coded Protocol confidence. -/
theorem prot_conf : ∀ r : OppData, (assess_protocol_risk r).confidence = 0.85 := fun _ => rfl

/-- Hard-coded Oracle confidence. -/
theorem orc_conf : ∀ r : OppData, (assess_oracle_risk r).confidence = 0.8 := fun _ => rfl

/-- Categories of the metrics each assessor returns. -/
theorem reg_cat : ∀ r : OppData, (assess_regulatory_risk r).category = RiskCategory.REGULATORY := fun _ => rfl

/-- Liquidity category. -/
theorem liq_cat : ∀ r : OppData, (assess_liquidity_risk r).category = RiskCategory.LIQUIDITY := fun _ => rfl

/-- Protocol category. -/
theorem prot_cat : ∀ r : OppData, (assess_protocol_risk r).category = RiskCategory.PROTOCOL := fun _ => rfl

/-- Market category. -/
theorem mkt_cat : ∀ r : OppData, (assess_market_risk r).category = RiskCategory.MARKET := fun _ => rfl

/-- Oracle category. -/
theorem orc_cat : ∀ r : OppData, (assess_oracle_risk r).category = RiskCategory.ORACLE := fun _ => rfl

/-- Bridge category (both the bridge and the no-bridge branch). -/
theorem brg_cat (r : OppData) : (assess_bridge_risk r).category = RiskCategory.BRIDGE := by
  unfold assess_bridge_risk
  split_ifs <;> rfl

/-- IL category (both the LP and the not-applicable branch). -/
theorem il_cat (r : OppData) :
    (assess_impermanent_loss_risk r).category = RiskCategory.IMPERMANENT_LOSS := by
  unfold assess_impermanent_loss_risk
  split_ifs <;> rfl

/-- The IL confidence is 0.8 or 1, hence within [0.7, 1]. -/
theorem il_conf_bounds (r : OppData) :
    0.7 ≤ (assess_impermanent_loss_risk r).confidence ∧
    (assess_impermanent_loss_risk r).confidence ≤ 1 := by
  unfold assess_impermanent_loss_risk
  split_ifs <;> constructor <;> norm_num

/-- The Bridge confidence is 0.75 or 1, hence within [0.7, 1]. -/
theorem brg_conf_bounds (r : OppData) :
    0.7 ≤ (assess_bridge_risk r).confidence ∧ (assess_bridge_risk r).confidence ≤ 1 := by
  unfold assess_bridge_risk
  split_ifs <;> constructor <;> norm_num

/-- Market score bounds. -/
theorem mkt_score_bounds (r : OppData) :
    0 ≤ (assess_market_risk r).score ∧ (assess_market_risk r).score ≤ 10 := by
  simp only [assess_market_risk]
  split_ifs <;> constructor <;> norm_num

/-- Regulatory score bounds. -/
theorem reg_score_bounds (r : OppData) :
    0 ≤ (assess_regulatory_risk r).score ∧ (assess_regulatory_risk r).score ≤ 10 := by
  simp only [assess_regulatory_risk]
  split_ifs <;> constructor <;> norm_num

/-- Every oracle reputation value lies in [2, 9]. -/
theorem oracle_scores_bounds (s : String) :
    2 ≤ oracle_scores s ∧ oracle_scores s ≤ 9 := by
  unfold oracle_scores
  split_ifs <;> constructor <;> norm_num

/-- Oracle score bounds: the base lies in [2,9] and the discounts only
shrink it towards (but never past) 0. -/
theorem orc_score_bounds (r : OppData) :
    0 ≤ (assess_oracle_risk r).score ∧ (assess_oracle_risk r).score ≤ 10 := by
  have hB := oracle_scores_bounds (strLower (r.oracle_provider.getD "unknown"))
  simp only [assess_oracle_risk]
  split_ifs <;> constructor <;> linarith [hB.1, hB.2]

/-- Every bridge reputation value lies in [2, 9]. -/
theorem bridge_scores_bounds (s : String) :
    2 ≤ bridge_scores s ∧ bridge_scores s ≤ 9 := by
  unfold bridge_scores
  split_ifs <;> constructor <;> norm_num

/-- Bridge score bounds, covering the amplifications with their caps. -/
theorem brg_score_bounds (r : OppData) :
    0 ≤ (assess_bridge_risk r).score ∧ (assess_bridge_risk r).score ≤ 10 := by
  have hB := bridge_scores_bounds (strLower (r.bridge_provider.getD "unknown"))
  simp only [assess_bridge_risk, min_def]
  split_ifs <;> constructor <;> (dsimp only) <;> linarith [hB.1, hB.2]

/-- Liquidity score bounds: the weighted blend of the four tier values
stays within [0, 9.2] ⊆ [0, 10]. -/
theorem liq_score_bounds (r : OppData) :
    0 ≤ (assess_liquidity_risk r).score ∧ (assess_liquidity_risk r).score ≤ 10 := by
  simp only [assess_liquidity_risk, min_def]
  split_ifs <;> constructor <;> linarith

/-- Protocol score bounds. -/
theorem prot_score_bounds (r : OppData) :
    0 ≤ (assess_protocol_risk r).score ∧ (assess_protocol_risk r).score ≤ 10 := by
  simp only [assess_protocol_risk, min_def]
  split_ifs <;> constructor <;> linarith

/-- IL score bounds, assuming nonnegative volatilities and a correlation
of magnitude at most 1. -/
theorem il_score_bounds (r : OppData)
    (hv1 : 0 ≤ r.token1_volatility.getD 0.5) (hv2 : 0 ≤ r.token2_volatility.getD 0.5)
    (hcorr : |r.token_correlation.getD 0| ≤ 1) :
    0 ≤ (assess_impermanent_loss_risk r).score ∧ (assess_impermanent_loss_risk r).score ≤ 10 := by
  have habs1 := abs_nonneg (r.token_correlation.getD 0)
  have habs2 := abs_nonneg (r.token1_volatility.getD 0.5 - r.token2_volatility.getD 0.5)
  by_cases hlp : r.is_lp_position.getD false = true
  · simp only [assess_impermanent_loss_risk, hlp, if_true, min_def]
    split_ifs <;> constructor <;> (dsimp only) <;> linarith
  · simp only [assess_impermanent_loss_risk, hlp, if_false]
    constructor <;> norm_num

/-- The aggregation denominator over the 8 metrics of a successful
assessment is positive: every weight is positive and every confidence is at
least 0.7. -/
theorem den_pos (now : ℤ) (r : OppData) (sc : RiskMetrics)
    (hsc : assess_smart_contract_risk now r = .ok sc) :
    0 < (([sc, assess_impermanent_loss_risk r, assess_liquidity_risk r,
        assess_protocol_risk r, assess_market_risk r, assess_regulatory_risk r,
        assess_oracle_risk r, assess_bridge_risk r]).map
        fun m => risk_weights m.category * m.confidence).sum := by
  obtain ⟨hconf, hcat⟩ := sc_ok_facts now r sc hsc
  simp only [List.map_cons, List.map_nil, List.sum_cons, List.sum_nil, add_zero,
    hcat, hconf, il_cat r, liq_cat r, prot_cat r, mkt_cat r, reg_cat r, orc_cat r, brg_cat r,
    liq_conf r, prot_conf r, mkt_conf r, reg_conf r, orc_conf r]
  simp only [risk_weights]
  linarith [(il_conf_bounds r).1, (il_conf_bounds r).2,
    (brg_conf_bounds r).1, (brg_conf_bounds r).2]

/-! The claims. -/

/-- C1: for metrics with nonnegative confidences (as all assessors produce),
`calculate_overall_risk` equals the spec formula
`Σ(score_i · weight_i · confidence_i) / Σ(weight_i · confidence_i)` with
neutral default 5 when the denominator is zero, and the weight table is
exactly Smart-Contract 0.25, IL 0.20, Liquidity 0.15, Protocol 0.15,
Market 0.10, Regulatory 0.05, Oracle 0.05, Bridge 0.05, summing to 1. -/
theorem C1_aggregation (risk_metrics : List RiskMetrics)
    (h : ∀ m ∈ risk_metrics, 0 ≤ m.confidence) :
    calculate_overall_risk risk_metrics = overall_score_spec risk_metrics ∧
    risk_weights RiskCategory.SMART_CONTRACT = 0.25 ∧
    risk_weights RiskCategory.IMPERMANENT_LOSS = 0.20 ∧
    risk_weights RiskCategory.LIQUIDITY = 0.15 ∧
    risk_weights RiskCategory.PROTOCOL = 0.15 ∧
    risk_weights RiskCategory.MARKET = 0.10 ∧
    risk_weights RiskCategory.REGULATORY = 0.05 ∧
    risk_weights RiskCategory.ORACLE = 0.05 ∧
    risk_weights RiskCategory.BRIDGE = 0.05 ∧
    risk_weights RiskCategory.SMART_CONTRACT + risk_weights RiskCategory.IMPERMANENT_LOSS +
      risk_weights RiskCategory.LIQUIDITY + risk_weights RiskCategory.PROTOCOL +
      risk_weights RiskCategory.MARKET + risk_weights RiskCategory.REGULATORY +
      risk_weights RiskCategory.ORACLE + risk_weights RiskCategory.BRIDGE = 1 := by
  refine ⟨?_, by norm_num [risk_weights], by norm_num [risk_weights], by norm_num [risk_weights],
    by norm_num [risk_weights], by norm_num [risk_weights], by norm_num [risk_weights],
    by norm_num [risk_weights], by norm_num [risk_weights], by norm_num [risk_weights]⟩
  unfold calculate_overall_risk overall_score_spec
  have hden : 0 ≤ (risk_metrics.map fun m => risk_weights m.category * m.confidence).sum := by
    apply List.sum_nonneg
    intro x hx
    simp only [List.mem_map] at hx
    obtain ⟨m, hm, rfl⟩ := hx
    exact mul_nonneg (le_of_lt (risk_weights_pos m.category)) (h m hm)
  rcases eq_or_lt_of_le hden with hzero | hpos
  · rw [if_neg (by rw [← hzero]; exact lt_irrefl 0), if_pos hzero.symm]
  · rw [if_pos hpos, if_neg (ne_of_gt hpos)]

/-- C1 witness: the aggregation theorem instantiated at a concrete
one-metric list. -/
theorem C1_witness :
    (∀ m ∈ [c1_metric], 0 ≤ m.confidence) ∧
    (calculate_overall_risk [c1_metric] = overall_score_spec [c1_metric] ∧
     risk_weights RiskCategory.SMART_CONTRACT = 0.25 ∧
     risk_weights RiskCategory.IMPERMANENT_LOSS = 0.20 ∧
     risk_weights RiskCategory.LIQUIDITY = 0.15 ∧
     risk_weights RiskCategory.PROTOCOL = 0.15 ∧
     risk_weights RiskCategory.MARKET = 0.10 ∧
     risk_weights RiskCategory.REGULATORY = 0.05 ∧
     risk_weights RiskCategory.ORACLE = 0.05 ∧
     risk_weights RiskCategory.BRIDGE = 0.05 ∧
     risk_weights RiskCategory.SMART_CONTRACT + risk_weights RiskCategory.IMPERMANENT_LOSS +
       risk_weights RiskCategory.LIQUIDITY + risk_weights RiskCategory.PROTOCOL +
       risk_weights RiskCategory.MARKET + risk_weights RiskCategory.REGULATORY +
       risk_weights RiskCategory.ORACLE + risk_weights RiskCategory.BRIDGE = 1) :=
  ⟨by with_unfolding_all decide, C1_aggregation [c1_metric] (by with_unfolding_all decide)⟩

/-- C2 counterexample: on the spec's end-to-end scenario input the engine
returns risk_tier "MEDIUM" — neither "HIGH" nor "EXTREME" — and a maximum
allocation of 15, which is not ≤ 8. (The overall score is 4506/875 ≈ 5.15.) -/
theorem C2_counterexample :
    tierOf (assess_opportunity 0 c2_input) = "MEDIUM" ∧
    ¬ (tierOf (assess_opportunity 0 c2_input) = "HIGH" ∨
       tierOf (assess_opportunity 0 c2_input) = "EXTREME") ∧
    allocOf (assess_opportunity 0 c2_input) = 15 ∧
    ¬ allocOf (assess_opportunity 0 c2_input) ≤ 8 := by
  with_unfolding_all decide

/-- C2 (amended): on the spec's end-to-end scenario input the assessment
returns risk_tier "MEDIUM" and max_allocation_percentage 15, at every clock
time (the input lists no audits, so the clock is never read). -/
theorem C2_amended (now : ℤ) :
    tierOf (assess_opportunity now c2_input) = "MEDIUM" ∧
    allocOf (assess_opportunity now c2_input) = 15 := by
  rw [assess_opportunity_time_indep now 0 c2_input (by with_unfolding_all rfl)]
  exact ⟨by with_unfolding_all rfl, by with_unfolding_all rfl⟩

/-- C3 counterexample: an overall score of exactly 4 is classified
"MEDIUM", not "LOW", with the smaller suitability set and the smaller
allocation ceiling 15 (not 25). -/
theorem C3_counterexample :
    determine_risk_tier 4 = "MEDIUM" ∧ determine_risk_tier 4 ≠ "LOW" ∧
    determine_suitability 4 = ["Moderate", "Aggressive", "Degen"] ∧
    calculate_max_allocation 4 = 15 ∧ calculate_max_allocation 4 ≠ 25 := by
  with_unfolding_all decide

/-- C3 (amended): every classification boundary is half-open on its upper
end (`score < threshold`), so a score exactly at a boundary belongs to the
HIGHER-risk side: tier(2)=LOW, tier(4)=MEDIUM, tier(6)=HIGH,
tier(8)=EXTREME, with the correspondingly smaller suitability sets and
allocation ceilings. -/
theorem C3_amended :
    determine_risk_tier 2 = "LOW" ∧ determine_risk_tier 4 = "MEDIUM" ∧
    determine_risk_tier 6 = "HIGH" ∧ determine_risk_tier 8 = "EXTREME" ∧
    determine_suitability 4 = ["Moderate", "Aggressive", "Degen"] ∧
    determine_suitability 6 = ["Aggressive", "Degen"] ∧
    determine_suitability 8 = ["Degen"] ∧
    calculate_max_allocation 2 = 25 ∧ calculate_max_allocation 4 = 15 ∧
    calculate_max_allocation 6 = 8 ∧ calculate_max_allocation 8 = 3 := by
  with_unfolding_all decide

/-- C4 counterexample: the same input, assessed at two clock times (day 0
and day 365), produces different outputs — "LOW" versus "MEDIUM" — because
the audit-age decay reads `pd.Timestamp.now()`; the computation is not a
function of the input record alone. -/
theorem C4_counterexample :
    tierOf (assess_opportunity 0 c4_input) = "LOW" ∧
    tierOf (assess_opportunity 365 c4_input) = "MEDIUM" ∧
    assess_opportunity 0 c4_input ≠ assess_opportunity 365 c4_input := by
  refine ⟨by with_unfolding_all rfl, by with_unfolding_all rfl, ?_⟩
  intro hEq
  have h2 := congrArg tierOf hEq
  rw [show tierOf (assess_opportunity 0 c4_input) = "LOW" by with_unfolding_all rfl,
      show tierOf (assess_opportunity 365 c4_input) = "MEDIUM" by with_unfolding_all rfl] at h2
  exact absurd h2 (by decide)

/-- C4 (amended): the assessment is a deterministic function of the input
record and the clock reading; for an input listing no audits the clock is
never consulted, so any two calls yield identical outputs. -/
theorem C4_amended (t1 t2 : ℤ) (r : OppData)
    (h : (r.audits.getD []).isEmpty = true) :
    assess_opportunity t1 r = assess_opportunity t2 r :=
  assess_opportunity_time_indep t1 t2 r h

/-- C4 witness: the amended determinism theorem at the empty input and two
distinct clock times. -/
theorem C4_witness :
    ((({} : OppData).audits.getD []).isEmpty = true) ∧
    assess_opportunity 0 ({} : OppData) = assess_opportunity 100 ({} : OppData) :=
  ⟨by with_unfolding_all rfl, C4_amended 0 100 ({} : OppData) (by with_unfolding_all rfl)⟩

/-- C5 counterexample: an audit entry with a recognized firm but no date
makes the assessment raise (`audit['date']` is a raw index), so a missing
optional sub-field is NOT always silently defaulted. -/
theorem C5_counterexample :
    assess_opportunity 0 c5_input = .error "KeyError: date" ∧
    isOkE (assess_opportunity 0 c5_input) = false :=
  ⟨by with_unfolding_all rfl, by with_unfolding_all rfl⟩

/-- C5 (amended): missing optional fields are silently defaulted except an
audit entry's date: whenever every audit whose firm is in the reputation
table carries a date, the entry point returns normally. -/
theorem C5_amended (now : ℤ) (r : OppData)
    (h : ∀ a ∈ r.audits.getD [], audit_firms (strLower (a.firm.getD "")) ≠ none → a.date ≠ none) :
    ∃ res, assess_opportunity now r = .ok res := by
  obtain ⟨m, hm⟩ := assess_smart_contract_risk_ok now r h
  unfold assess_opportunity
  rw [hm]
  exact ⟨_, rfl⟩

/-- C5 witness: an audit entry with an unrecognized firm and no date does
not raise — the firm sub-field is defaulted and the date is never read. -/
theorem C5_witness :
    (∀ a ∈ c5_witness_input.audits.getD [],
      audit_firms (strLower (a.firm.getD "")) ≠ none → a.date ≠ none) ∧
    ∃ res, assess_opportunity 7 c5_witness_input = .ok res :=
  ⟨by with_unfolding_all decide, C5_amended 7 c5_witness_input (by with_unfolding_all decide)⟩

/-- C6 counterexample: with no audits listed (and every other field absent)
the Smart-Contract category score is 10, the maximum — the audit component
contributes its full base risk of 10 to the category score, not 0. -/
theorem C6_counterexample :
    ∃ m, assess_smart_contract_risk 0 ({} : OppData) = .ok m ∧
      m.score = 10 ∧ m.score ≠ 0 := by
  refine ⟨_, by with_unfolding_all rfl, by with_unfolding_all rfl, by with_unfolding_all decide⟩

/-- C6 (amended): with no audits listed the audit component starts at the
maximum risk 10, so the category score is at least 10·0.8·0.7 = 5.6
whatever the other inputs; the audit-quality factor is recorded as 0 (zero
quality, i.e. maximum risk on its quality scale) and the audit-prompt
mitigation is appended. -/
theorem C6_amended (now : ℤ) (r : OppData) (h : (r.audits.getD []).isEmpty = true) :
    ∃ m, assess_smart_contract_risk now r = .ok m ∧
      5.6 ≤ m.score ∧ m.score ≤ 10 ∧
      ("audit_quality", FactorVal.num 0) ∈ m.factors ∧
      "⚠️ Get protocol audited by reputable firm" ∈ m.mitigation := by
  unfold assess_smart_contract_risk
  simp only [h, if_true]
  refine ⟨_, rfl, ?_, ?_, ?_, ?_⟩
  · refine le_min (by norm_num) ?_
    split_ifs <;> with_unfolding_all decide
  · exact min_le_left _ _
  · simp
  · simp

/-- C6 witness: the amended no-audit theorem at the empty input. -/
theorem C6_witness :
    ((({} : OppData).audits.getD []).isEmpty = true) ∧
    ∃ m, assess_smart_contract_risk 3 ({} : OppData) = .ok m ∧
      5.6 ≤ m.score ∧ m.score ≤ 10 ∧
      ("audit_quality", FactorVal.num 0) ∈ m.factors ∧
      "⚠️ Get protocol audited by reputable firm" ∈ m.mitigation :=
  ⟨by with_unfolding_all rfl, C6_amended 3 ({} : OppData) (by with_unfolding_all rfl)⟩

/-- C7 counterexample: a stable LP pair with concentrated liquidity scores
3, above the claimed cap of 2, because the stable-pair cap is applied
before the ×1.5 concentrated-liquidity amplification. -/
theorem C7_counterexample :
    (assess_impermanent_loss_risk c7_input).score = 3 ∧
    ¬ (assess_impermanent_loss_risk c7_input).score ≤ 2 := by
  with_unfolding_all decide

/-- C7 (amended): for a stable LP pair the IL score is at most 3 in
general, and at most 2 whenever concentrated liquidity is not set —
the cap min(2, ·) precedes the ×1.5 amplification, which is itself capped
at 10. -/
theorem C7_amended (r : OppData) (h1 : r.is_lp_position.getD false = true)
    (h2 : r.is_stable_pair.getD false = true) :
    (assess_impermanent_loss_risk r).score ≤ 3 ∧
    (r.concentrated_liquidity.getD false = false →
      (assess_impermanent_loss_risk r).score ≤ 2) := by
  unfold assess_impermanent_loss_risk
  simp only [h1, h2, if_true, eq_self_iff_true]
  constructor
  · split
    · refine le_trans (min_le_right _ _) ?_
      have hx := min_le_left (2:ℚ)
        (if r.il_protection.getD false = true then
          ((min 10 ((r.token1_volatility.getD 0.5 + r.token2_volatility.getD 0.5) / 2 * 20) * 0.5 +
            (1 - |r.token_correlation.getD 0|) * 5 * 0.3 +
            min 5 (|r.token1_volatility.getD 0.5 - r.token2_volatility.getD 0.5| * 10) * 0.2) * 0.3)
         else
          (min 10 ((r.token1_volatility.getD 0.5 + r.token2_volatility.getD 0.5) / 2 * 20) * 0.5 +
            (1 - |r.token_correlation.getD 0|) * 5 * 0.3 +
            min 5 (|r.token1_volatility.getD 0.5 - r.token2_volatility.getD 0.5| * 10) * 0.2))
      linarith
    · exact le_trans (min_le_left _ _) (by norm_num)
  · intro hc
    simp only [hc, Bool.false_eq_true, if_false]
    exact min_le_left _ _

/-- C7 witness: the amended cap theorem at a concrete stable LP pair
without concentrated liquidity. -/
theorem C7_witness :
    (c7_witness_input.is_lp_position.getD false = true ∧
     c7_witness_input.is_stable_pair.getD false = true) ∧
    ((assess_impermanent_loss_risk c7_witness_input).score ≤ 3 ∧
     (c7_witness_input.concentrated_liquidity.getD false = false →
       (assess_impermanent_loss_risk c7_witness_input).score ≤ 2)) :=
  ⟨⟨by with_unfolding_all rfl, by with_unfolding_all rfl⟩,
   C7_amended c7_witness_input (by with_unfolding_all rfl) (by with_unfolding_all rfl)⟩

/-- C8: for every input with nonnegative volatilities, a correlation of
magnitude at most 1, and no future-dated audits, every metric of a
(successful) assessment has score in [0,10] and confidence in [0,1]. -/
theorem C8_metric_bounds (now : ℤ) (r : OppData)
    (hv1 : 0 ≤ r.token1_volatility.getD 0.5) (hv2 : 0 ≤ r.token2_volatility.getD 0.5)
    (hcorr : |r.token_correlation.getD 0| ≤ 1)
    (hd : ∀ a ∈ r.audits.getD [], a.date.getD now ≤ now) :
    ∀ m ∈ metricsOf (assess_opportunity now r),
      (0 ≤ m.score ∧ m.score ≤ 10) ∧ 0 ≤ m.confidence ∧ m.confidence ≤ 1 := by
  intro m hm
  cases hsc : assess_smart_contract_risk now r with
  | error e =>
    unfold assess_opportunity at hm
    simp only [hsc] at hm
    simp [metricsOf] at hm
  | ok sc =>
    unfold assess_opportunity at hm
    simp only [hsc] at hm
    simp only [metricsOf, List.mem_cons, List.not_mem_nil, or_false] at hm
    rcases hm with rfl | rfl | rfl | rfl | rfl | rfl | rfl | rfl
    · obtain ⟨hconf, _⟩ := sc_ok_facts now r m hsc
      exact ⟨sc_score_bounds now r m hd hsc, by rw [hconf]; norm_num, by rw [hconf]; norm_num⟩
    · exact ⟨il_score_bounds r hv1 hv2 hcorr,
        le_trans (by norm_num) (il_conf_bounds r).1, (il_conf_bounds r).2⟩
    · exact ⟨liq_score_bounds r, by rw [liq_conf r]; norm_num, by rw [liq_conf r]; norm_num⟩
    · exact ⟨prot_score_bounds r, by rw [prot_conf r]; norm_num, by rw [prot_conf r]; norm_num⟩
    · exact ⟨mkt_score_bounds r, by rw [mkt_conf r]; norm_num, by rw [mkt_conf r]; norm_num⟩
    · exact ⟨reg_score_bounds r, by rw [reg_conf r]; norm_num, by rw [reg_conf r]; norm_num⟩
    · exact ⟨orc_score_bounds r, by rw [orc_conf r]; norm_num, by rw [orc_conf r]; norm_num⟩
    · exact ⟨brg_score_bounds r,
        le_trans (by norm_num) (brg_conf_bounds r).1, (brg_conf_bounds r).2⟩

/-- C8 witness: the bounds theorem at the empty (all-defaults) input. -/
theorem C8_witness :
    (0 ≤ (({} : OppData).token1_volatility.getD 0.5) ∧
     0 ≤ (({} : OppData).token2_volatility.getD 0.5) ∧
     |(({} : OppData).token_correlation.getD 0)| ≤ 1 ∧
     (∀ a ∈ ({} : OppData).audits.getD [], a.date.getD 0 ≤ 0)) ∧
    ∀ m ∈ metricsOf (assess_opportunity 0 ({} : OppData)),
      (0 ≤ m.score ∧ m.score ≤ 10) ∧ 0 ≤ m.confidence ∧ m.confidence ≤ 1 :=
  ⟨⟨by with_unfolding_all decide, by with_unfolding_all decide,
    by with_unfolding_all decide, by with_unfolding_all decide⟩,
   C8_metric_bounds 0 ({} : OppData) (by with_unfolding_all decide)
     (by with_unfolding_all decide) (by with_unfolding_all decide)
     (by with_unfolding_all decide)⟩

/-- C9: raising `previous_exploits` from 0 to 1 with every other field
fixed never decreases the Protocol score (it adds exactly
min(10, 5+2)·0.2 = 1.4). -/
theorem C9_exploit_monotonic (r : OppData) :
    (assess_protocol_risk { r with previous_exploits := some 0 }).score ≤
    (assess_protocol_risk { r with previous_exploits := some 1 }).score := by
  simp only [assess_protocol_risk, Option.getD_some]
  rw [if_neg (by norm_num : ¬ ((0:ℚ) > 0)), if_pos (by norm_num : (1:ℚ) > 0)]
  rw [show min (10:ℚ) (5 + 1*2) = 7 by with_unfolding_all rfl]
  linarith

/-- C10: for every assessment that returns, the aggregation denominator
Σ(weight·confidence) over its 8 metrics is strictly positive (every
confidence is ≥ 0.7 and every weight positive), so the degenerate
"return 5" branch is unreachable from the entry point and overall_score is
the genuine confidence-weighted average. -/
theorem C10_denominator_positive (now : ℤ) (r : OppData)
    (hok : isOkE (assess_opportunity now r) = true) :
    0 < ((metricsOf (assess_opportunity now r)).map
        fun m => risk_weights m.category * m.confidence).sum ∧
    overallOf (assess_opportunity now r) =
      ((metricsOf (assess_opportunity now r)).map
        fun m => m.score * risk_weights m.category * m.confidence).sum /
      ((metricsOf (assess_opportunity now r)).map
        fun m => risk_weights m.category * m.confidence).sum := by
  cases hsc : assess_smart_contract_risk now r with
  | error e =>
    unfold assess_opportunity at hok
    simp only [hsc] at hok
    simp [isOkE] at hok
  | ok sc =>
    have hpos := den_pos now r sc hsc
    unfold assess_opportunity
    simp only [hsc]
    simp only [metricsOf, overallOf]
    refine ⟨hpos, ?_⟩
    unfold calculate_overall_risk
    rw [if_pos hpos]

/-- C10 witness: the denominator-positivity theorem at the empty input. -/
theorem C10_witness :
    isOkE (assess_opportunity 0 ({} : OppData)) = true ∧
    (0 < ((metricsOf (assess_opportunity 0 ({} : OppData))).map
        fun m => risk_weights m.category * m.confidence).sum ∧
     overallOf (assess_opportunity 0 ({} : OppData)) =
      ((metricsOf (assess_opportunity 0 ({} : OppData))).map
        fun m => m.score * risk_weights m.category * m.confidence).sum /
      ((metricsOf (assess_opportunity 0 ({} : OppData))).map
        fun m => risk_weights m.category * m.confidence).sum) :=
  ⟨by with_unfolding_all rfl,
   C10_denominator_positive 0 ({} : OppData) (by with_unfolding_all rfl)⟩
